import Mathlib

/-
Shallow embedding of src/synapse/rest/client/v2_alpha/devices.py.

The file models the four REST servant entry points of the device API:
DevicesRestServlet.on_GET (list), DeleteDevicesRestServlet.on_POST
(bulk delete), DeviceRestServlet.on_GET / on_DELETE / on_PUT
(get, single delete, update).

External collaborators (the auth resolver get_user_by_req, the body parser
parse_json_object_from_request, the interactive-auth gate check_auth, and
the device handler operations) live outside this source file; each handler
is therefore a pure function of an Env record that fixes the outcome of
every collaborator call, and it returns both the HTTP-level result and the
ordered trace of collaborator calls it performed.
-/

/-- JSON values, as produced by the request body parser. -/
inductive Json where
  | null : Json
  | bool (b : Bool) : Json
  | num (n : Int) : Json
  | str (s : String) : Json
  | arr (elems : List Json) : Json
  | obj (fields : List (String × Json)) : Json
  deriving Repr

/-- A parsed JSON object body: an association list of fields. -/
abbrev JsonObject := List (String × Json)

/-- The errors.SynapseError exception: HTTP code, message and errcode. -/
structure SynapseError where
  code : Nat
  msg : String
  errcode : String
  deriving Repr, DecidableEq

/-- Error code constants from synapse.api.errors.Codes, modelled from the
spec taxonomy in section 7 (NotJson, MissingParam, Forbidden). -/
def Codes.NOT_JSON : String := "M_NOT_JSON"

/-- Missing-parameter error code from synapse.api.errors.Codes. -/
def Codes.MISSING_PARAM : String := "M_MISSING_PARAM"

/-- Forbidden error code, the default errcode of errors.AuthError. -/
def Codes.FORBIDDEN : String := "M_FORBIDDEN"

/-- The base password credential stage type, constants.LoginType.PASSWORD. -/
def LoginType.PASSWORD : String := "m.login.password"

/-- The requester resolved from the access token by auth.get_user_by_req. -/
structure Requester where
  user_id : String
  is_guest : Bool
  deriving Repr, DecidableEq

/-- Outcome of auth_handler.check_auth, the interactive-auth Gate.
In the source the call returns a tuple (authed, result, params, session_id);
authed true corresponds to satisfied and result then maps each completed
stage type to the identity it proved, while authed false corresponds to
challenge and result is the challenge body returned verbatim. -/
inductive CheckAuthOutcome where
  | satisfied (creds : List (String × String)) : CheckAuthOutcome
  | challenge (result : Json) : CheckAuthOutcome
  deriving Repr

/-- One collaborator call performed by a handler, recorded in order. -/
inductive Call where
  | get_user_by_req (allow_guest : Bool) : Call
  | parse_json_object_from_request : Call
  | check_auth (flows : List (List String)) (body : JsonObject) (ip : String) : Call
  | get_devices_by_user (user_id : String) : Call
  | get_device (user_id : String) (device_id : String) : Call
  | update_device (user_id : String) (device_id : String) (body : JsonObject) : Call
  | delete_device (user_id : String) (device_id : String) : Call
  | delete_devices (user_id : String) (device_ids : Json) : Call
  deriving Repr

/-- The behaviour of every external collaborator for one request:
what get_user_by_req returns for each allow_guest flag, how the body
parses, the client IP, the Gate outcome as a function of its arguments,
and the device handler results. -/
structure Env where
  get_user_by_req : Bool → Except SynapseError Requester
  parse_json_object_from_request : Except SynapseError JsonObject
  client_ip : String
  check_auth : List (List String) → JsonObject → String → CheckAuthOutcome
  get_devices_by_user : String → Except SynapseError Json
  get_device : String → String → Except SynapseError Json
  update_device : String → String → JsonObject → Except SynapseError Unit
  delete_device : String → String → Except SynapseError Unit
  delete_devices : String → Json → Except SynapseError Unit

/-- Result of a handler: either an HTTP response (status, body) returned by
defer.returnValue, or a raised SynapseError. -/
inductive HttpResult where
  | response (status : Nat) (body : Json) : HttpResult
  | raised (e : SynapseError) : HttpResult
  deriving Repr

/-- A handler run: the HTTP result plus the ordered collaborator calls. -/
abbrev HandlerRun := HttpResult × List Call

/-- DevicesRestServlet.on_GET: resolve the requester (guests allowed), then
return 200 with the device list wrapped as an object under devices. -/
def DevicesRestServlet.on_GET (env : Env) : HandlerRun :=
  match env.get_user_by_req true with
  | .error e => (.raised e, [.get_user_by_req true])
  | .ok requester =>
      match env.get_devices_by_user requester.user_id with
      | .error e =>
          (.raised e,
           [.get_user_by_req true, .get_devices_by_user requester.user_id])
      | .ok devices =>
          (.response 200 (Json.obj [("devices", devices)]),
           [.get_user_by_req true, .get_devices_by_user requester.user_id])

/-- Continuation of DeleteDevicesRestServlet.on_POST after body
normalization: require the devices key, invoke the Gate with the single
password flow, on challenge return 401 with the result verbatim, otherwise
resolve the requester and call delete_devices. The argument tr carries the
calls already performed. -/
def DeleteDevicesRestServlet.on_POST_after_parse (env : Env)
    (body : JsonObject) (tr : List Call) : HandlerRun :=
  match body.lookup "devices" with
  | none =>
      (.raised ⟨400, "No devices supplied", Codes.MISSING_PARAM⟩, tr)
  | some devices =>
      let tr := tr ++ [Call.check_auth [[LoginType.PASSWORD]] body env.client_ip]
      match env.check_auth [[LoginType.PASSWORD]] body env.client_ip with
      | .challenge result => (.response 401 result, tr)
      | .satisfied _ =>
          let tr := tr ++ [Call.get_user_by_req false]
          match env.get_user_by_req false with
          | .error e => (.raised e, tr)
          | .ok requester =>
              let tr := tr ++ [Call.delete_devices requester.user_id devices]
              match env.delete_devices requester.user_id devices with
              | .error e => (.raised e, tr)
              | .ok _ => (.response 200 (Json.obj []), tr)

/-- DeleteDevicesRestServlet.on_POST: parse the body, treating only a
SynapseError whose errcode is NOT_JSON as an empty object (older clients);
any other parse failure is re-raised. Then continue with the normalized
body. -/
def DeleteDevicesRestServlet.on_POST (env : Env) : HandlerRun :=
  match env.parse_json_object_from_request with
  | .error e =>
      if e.errcode = Codes.NOT_JSON then
        DeleteDevicesRestServlet.on_POST_after_parse env []
          [.parse_json_object_from_request]
      else
        (.raised e, [.parse_json_object_from_request])
  | .ok body =>
      DeleteDevicesRestServlet.on_POST_after_parse env body
        [.parse_json_object_from_request]

/-- DeviceRestServlet.on_GET: resolve the requester (guests allowed) and
return the device record from the device handler. -/
def DeviceRestServlet.on_GET (env : Env) (device_id : String) : HandlerRun :=
  match env.get_user_by_req true with
  | .error e => (.raised e, [.get_user_by_req true])
  | .ok requester =>
      let tr := [Call.get_user_by_req true,
                 Call.get_device requester.user_id device_id]
      match env.get_device requester.user_id device_id with
      | .error e => (.raised e, tr)
      | .ok device => (.response 200 device, tr)

/-- Continuation of DeviceRestServlet.on_DELETE after body normalization:
invoke the Gate with the single password flow; on challenge return 401 with
the result verbatim; on satisfied compare the identity proved by the
password stage against the requester bound to the access token, raising
AuthError 403 on mismatch, and otherwise delete the device. The source
reads result with a plain index, which presupposes the password stage is
present in a satisfied result; an absent stage is modelled by the empty
string default and cannot arise under the Gate contract for this flow. -/
def DeviceRestServlet.on_DELETE_after_parse (env : Env)
    (requester : Requester) (device_id : String)
    (body : JsonObject) (tr : List Call) : HandlerRun :=
  let tr := tr ++ [Call.check_auth [[LoginType.PASSWORD]] body env.client_ip]
  match env.check_auth [[LoginType.PASSWORD]] body env.client_ip with
  | .challenge result => (.response 401 result, tr)
  | .satisfied creds =>
      let user_id := (creds.lookup LoginType.PASSWORD).getD ""
      if user_id ≠ requester.user_id then
        (.raised ⟨403, "Invalid auth", Codes.FORBIDDEN⟩, tr)
      else
        let tr := tr ++ [Call.delete_device user_id device_id]
        match env.delete_device user_id device_id with
        | .error e => (.raised e, tr)
        | .ok _ => (.response 200 (Json.obj []), tr)

/-- DeviceRestServlet.on_DELETE: resolve the requester first (guests not
allowed), then parse the body with the same NOT_JSON tolerance as bulk
delete, then continue. -/
def DeviceRestServlet.on_DELETE (env : Env) (device_id : String) : HandlerRun :=
  match env.get_user_by_req false with
  | .error e => (.raised e, [.get_user_by_req false])
  | .ok requester =>
      let tr := [Call.get_user_by_req false,
                 Call.parse_json_object_from_request]
      match env.parse_json_object_from_request with
      | .error e =>
          if e.errcode = Codes.NOT_JSON then
            DeviceRestServlet.on_DELETE_after_parse env requester device_id [] tr
          else
            (.raised e, tr)
      | .ok body =>
          DeviceRestServlet.on_DELETE_after_parse env requester device_id body tr

/-- DeviceRestServlet.on_PUT: resolve the requester (guests allowed), parse
the body with no tolerance for parse failures, forward the update to the
device handler and return 200 with an empty object. -/
def DeviceRestServlet.on_PUT (env : Env) (device_id : String) : HandlerRun :=
  match env.get_user_by_req true with
  | .error e => (.raised e, [.get_user_by_req true])
  | .ok requester =>
      match env.parse_json_object_from_request with
      | .error e =>
          (.raised e, [.get_user_by_req true, .parse_json_object_from_request])
      | .ok body =>
          let tr := [Call.get_user_by_req true,
                     Call.parse_json_object_from_request,
                     Call.update_device requester.user_id device_id body]
          match env.update_device requester.user_id device_id body with
          | .error e => (.raised e, tr)
          | .ok _ => (.response 200 (Json.obj []), tr)

/-- The normalized request body on the delete paths: the parsed object, or
the empty object when parsing failed with the NOT_JSON errcode, or none
when the parse failure is fatal. -/
def normalized_body (env : Env) : Option JsonObject :=
  match env.parse_json_object_from_request with
  | .ok body => some body
  | .error e => if e.errcode = Codes.NOT_JSON then some [] else none

/-- A sample non-guest requester used in concrete runs. -/
def alice : Requester := ⟨"@alice:example.com", false⟩

/-- A sample guest requester used in concrete runs. -/
def guestUser : Requester := ⟨"@guest:example.com", true⟩

/-- A sample authentication failure from get_user_by_req. -/
def authFailure : SynapseError := ⟨401, "Missing access token", "M_MISSING_TOKEN"⟩

/-- A sample request body carrying a devices list. -/
def sampleBody : JsonObject := [("devices", Json.arr [Json.str "dev1"])]

/-- A sample Gate challenge body with session, flows and params. -/
def challengeBody : Json :=
  Json.obj [("session", Json.str "sess1"), ("flows", Json.arr []),
            ("params", Json.obj [])]

/-- A concrete environment in which every collaborator succeeds and the
Gate is satisfied by the password stage proving the same account as the
access token. -/
def envOk : Env :=
  { get_user_by_req := fun _ => .ok alice
    parse_json_object_from_request := .ok sampleBody
    client_ip := "10.0.0.1"
    check_auth := fun _ _ _ => .satisfied [(LoginType.PASSWORD, "@alice:example.com")]
    get_devices_by_user := fun _ => .ok (Json.arr [Json.obj [("device_id", Json.str "dev1")]])
    get_device := fun _ _ => .ok (Json.obj [("device_id", Json.str "dev1")])
    update_device := fun _ _ _ => .ok ()
    delete_device := fun _ _ => .ok ()
    delete_devices := fun _ _ => .ok () }

/-- Like envOk but the Gate returns a challenge. -/
def envChallenge : Env :=
  { envOk with check_auth := fun _ _ _ => .challenge challengeBody }

/-- Like envOk but the password stage proved a different account than the
one bound to the access token. -/
def envMismatch : Env :=
  { envOk with check_auth := fun _ _ _ =>
      .satisfied [(LoginType.PASSWORD, "@mallory:example.com")] }

/-- A parse failure carrying the NOT_JSON errcode. -/
def notJsonError : SynapseError := ⟨400, "Content not JSON.", Codes.NOT_JSON⟩

/-- A parse failure carrying an errcode other than NOT_JSON. -/
def badJsonError : SynapseError :=
  ⟨400, "Content must be a JSON object.", "M_BAD_JSON"⟩

/-- Like envOk but the body fails to parse with the NOT_JSON errcode. -/
def envNotJson : Env :=
  { envOk with parse_json_object_from_request := .error notJsonError }

/-- Like envOk but the body fails to parse with a different errcode. -/
def envBadJson : Env :=
  { envOk with parse_json_object_from_request := .error badJsonError }

/-- Like envOk but the requester is a guest: resolution succeeds only when
guests are allowed, and fails with an authentication error otherwise. -/
def envGuest : Env :=
  { envOk with get_user_by_req := fun allow_guest =>
      if allow_guest then .ok guestUser else .error authFailure }

/-- Body normalization on the bulk-delete path: when the normalized body is
defined, on_POST is the continuation applied to it. -/
theorem on_POST_normalizes (env : Env) (b : JsonObject)
    (hb : normalized_body env = some b) :
    DeleteDevicesRestServlet.on_POST env =
      DeleteDevicesRestServlet.on_POST_after_parse env b
        [.parse_json_object_from_request] := by
  unfold normalized_body at hb
  unfold DeleteDevicesRestServlet.on_POST
  cases hp : env.parse_json_object_from_request with
  | ok body =>
      rw [hp] at hb
      simp only [Option.some.injEq] at hb
      subst hb
      rfl
  | error e =>
      rw [hp] at hb
      by_cases hc : e.errcode = Codes.NOT_JSON
      · simp only [hc, if_pos] at hb ⊢
        simp only [Option.some.injEq] at hb
        subst hb
        rfl
      · simp only [hc, if_neg] at hb
        exact absurd hb (by simp)

/-- Body normalization on the single-delete path: once the requester is
resolved and the normalized body is defined, on_DELETE is the continuation
applied to it. -/
theorem on_DELETE_normalizes (env : Env) (requester : Requester)
    (device_id : String) (b : JsonObject)
    (hu : env.get_user_by_req false = .ok requester)
    (hb : normalized_body env = some b) :
    DeviceRestServlet.on_DELETE env device_id =
      DeviceRestServlet.on_DELETE_after_parse env requester device_id b
        [.get_user_by_req false, .parse_json_object_from_request] := by
  unfold normalized_body at hb
  unfold DeviceRestServlet.on_DELETE
  rw [hu]
  cases hp : env.parse_json_object_from_request with
  | ok body =>
      rw [hp] at hb
      simp only [Option.some.injEq] at hb
      subst hb
      rfl
  | error e =>
      rw [hp] at hb
      by_cases hc : e.errcode = Codes.NOT_JSON
      · simp only [hc, if_pos] at hb ⊢
        simp only [Option.some.injEq] at hb
        subst hb
        rfl
      · simp only [hc, if_neg] at hb
        exact absurd hb (by simp)

/-- Bulk delete with no devices key in the normalized body: MissingParam is
raised with only the parse call performed. -/
theorem on_POST_missing_devices_run (env : Env) (b : JsonObject)
    (hb : normalized_body env = some b)
    (hd : b.lookup "devices" = none) :
    DeleteDevicesRestServlet.on_POST env =
      (.raised ⟨400, "No devices supplied", Codes.MISSING_PARAM⟩,
       [.parse_json_object_from_request]) := by
  rw [on_POST_normalizes env b hb]
  unfold DeleteDevicesRestServlet.on_POST_after_parse
  rw [hd]

/-- Bulk delete when the Gate challenges: 401 with the challenge result
verbatim, and the run stops after the Gate call. -/
theorem on_POST_challenge_run (env : Env) (b : JsonObject) (ds : Json) (r : Json)
    (hb : normalized_body env = some b)
    (hd : b.lookup "devices" = some ds)
    (hca : env.check_auth [[LoginType.PASSWORD]] b env.client_ip = .challenge r) :
    DeleteDevicesRestServlet.on_POST env =
      (.response 401 r,
       [.parse_json_object_from_request,
        .check_auth [[LoginType.PASSWORD]] b env.client_ip]) := by
  rw [on_POST_normalizes env b hb]
  unfold DeleteDevicesRestServlet.on_POST_after_parse
  rw [hd]
  simp only [hca]
  rfl

/-- Bulk delete on the fully successful path: the Gate is satisfied with
any credentials, the requester resolves, delete_devices succeeds, and the
response is 200 with an empty object. -/
theorem on_POST_success_run (env : Env) (b : JsonObject) (ds : Json)
    (creds : List (String × String)) (requester : Requester)
    (hb : normalized_body env = some b)
    (hd : b.lookup "devices" = some ds)
    (hca : env.check_auth [[LoginType.PASSWORD]] b env.client_ip = .satisfied creds)
    (hu : env.get_user_by_req false = .ok requester)
    (hdel : env.delete_devices requester.user_id ds = .ok ()) :
    DeleteDevicesRestServlet.on_POST env =
      (.response 200 (Json.obj []),
       [.parse_json_object_from_request,
        .check_auth [[LoginType.PASSWORD]] b env.client_ip,
        .get_user_by_req false,
        .delete_devices requester.user_id ds]) := by
  rw [on_POST_normalizes env b hb]
  unfold DeleteDevicesRestServlet.on_POST_after_parse
  rw [hd]
  simp only [hca, hu, hdel]
  rfl

/-- Single delete when the Gate challenges: 401 with the challenge result
verbatim, and the run stops after the Gate call. -/
theorem on_DELETE_challenge_run (env : Env) (requester : Requester)
    (device_id : String) (b : JsonObject) (r : Json)
    (hu : env.get_user_by_req false = .ok requester)
    (hb : normalized_body env = some b)
    (hca : env.check_auth [[LoginType.PASSWORD]] b env.client_ip = .challenge r) :
    DeviceRestServlet.on_DELETE env device_id =
      (.response 401 r,
       [.get_user_by_req false, .parse_json_object_from_request,
        .check_auth [[LoginType.PASSWORD]] b env.client_ip]) := by
  rw [on_DELETE_normalizes env requester device_id b hu hb]
  unfold DeviceRestServlet.on_DELETE_after_parse
  simp only [hca]
  rfl

/-- Single delete when the Gate is satisfied but the password stage proved
a different account than the one bound to the access token: AuthError 403
is raised and no device handler call is made. -/
theorem on_DELETE_mismatch_run (env : Env) (requester : Requester)
    (device_id : String) (b : JsonObject)
    (creds : List (String × String)) (uid : String)
    (hu : env.get_user_by_req false = .ok requester)
    (hb : normalized_body env = some b)
    (hca : env.check_auth [[LoginType.PASSWORD]] b env.client_ip = .satisfied creds)
    (hid : creds.lookup LoginType.PASSWORD = some uid)
    (hne : uid ≠ requester.user_id) :
    DeviceRestServlet.on_DELETE env device_id =
      (.raised ⟨403, "Invalid auth", Codes.FORBIDDEN⟩,
       [.get_user_by_req false, .parse_json_object_from_request,
        .check_auth [[LoginType.PASSWORD]] b env.client_ip]) := by
  rw [on_DELETE_normalizes env requester device_id b hu hb]
  unfold DeviceRestServlet.on_DELETE_after_parse
  simp only [hca, hid, Option.getD_some, ne_eq, hne, not_false_eq_true, if_true]
  rfl

/-- Single delete on the fully successful path: the Gate is satisfied, the
proven identity matches the requester, and the device is deleted. -/
theorem on_DELETE_success_run (env : Env) (requester : Requester)
    (device_id : String) (b : JsonObject)
    (creds : List (String × String))
    (hu : env.get_user_by_req false = .ok requester)
    (hb : normalized_body env = some b)
    (hca : env.check_auth [[LoginType.PASSWORD]] b env.client_ip = .satisfied creds)
    (hid : creds.lookup LoginType.PASSWORD = some requester.user_id)
    (hdel : env.delete_device requester.user_id device_id = .ok ()) :
    DeviceRestServlet.on_DELETE env device_id =
      (.response 200 (Json.obj []),
       [.get_user_by_req false, .parse_json_object_from_request,
        .check_auth [[LoginType.PASSWORD]] b env.client_ip,
        .delete_device requester.user_id device_id]) := by
  rw [on_DELETE_normalizes env requester device_id b hu hb]
  unfold DeviceRestServlet.on_DELETE_after_parse
  simp only [hca, hid, Option.getD_some, ne_eq, not_true_eq_false, if_false,
    ite_not, hdel]
  rfl

/-- Update path: once the requester resolves and the body parses, on_PUT
performs exactly the resolve, parse and update_device calls, in order. -/
theorem on_PUT_trace_run (env : Env) (requester : Requester)
    (device_id : String) (body : JsonObject)
    (hu : env.get_user_by_req true = .ok requester)
    (hp : env.parse_json_object_from_request = .ok body) :
    (DeviceRestServlet.on_PUT env device_id).2 =
      [.get_user_by_req true, .parse_json_object_from_request,
       .update_device requester.user_id device_id body] := by
  unfold DeviceRestServlet.on_PUT
  cases hup : env.update_device requester.user_id device_id body with
  | error e => simp only [hu, hp, hup]
  | ok u => simp only [hu, hp, hup]

/-- Update path on full success: 200 with an empty object body. -/
theorem on_PUT_success_run (env : Env) (requester : Requester)
    (device_id : String) (body : JsonObject)
    (hu : env.get_user_by_req true = .ok requester)
    (hp : env.parse_json_object_from_request = .ok body)
    (hup : env.update_device requester.user_id device_id body = .ok ()) :
    DeviceRestServlet.on_PUT env device_id =
      (.response 200 (Json.obj []),
       [.get_user_by_req true, .parse_json_object_from_request,
        .update_device requester.user_id device_id body]) := by
  unfold DeviceRestServlet.on_PUT
  simp only [hu, hp, hup]

/-- List path on success: 200 with the device sequence wrapped under the
devices key. -/
theorem on_GET_list_success_run (env : Env) (requester : Requester)
    (devices : Json)
    (hu : env.get_user_by_req true = .ok requester)
    (hls : env.get_devices_by_user requester.user_id = .ok devices) :
    DevicesRestServlet.on_GET env =
      (.response 200 (Json.obj [("devices", devices)]),
       [.get_user_by_req true, .get_devices_by_user requester.user_id]) := by
  unfold DevicesRestServlet.on_GET
  simp only [hu, hls]

/-- Get path on success: 200 with the device record as the body. -/
theorem on_GET_device_success_run (env : Env) (requester : Requester)
    (device_id : String) (device : Json)
    (hu : env.get_user_by_req true = .ok requester)
    (hg : env.get_device requester.user_id device_id = .ok device) :
    DeviceRestServlet.on_GET env device_id =
      (.response 200 device,
       [.get_user_by_req true, .get_device requester.user_id device_id]) := by
  unfold DeviceRestServlet.on_GET
  simp only [hu, hg]

/-- The bulk-delete continuation only appends to the calls already made. -/
theorem on_POST_after_parse_trace_extends (env : Env) (b : JsonObject)
    (tr : List Call) :
    ∃ rest, (DeleteDevicesRestServlet.on_POST_after_parse env b tr).2 =
      tr ++ rest := by
  unfold DeleteDevicesRestServlet.on_POST_after_parse
  cases hl : List.lookup "devices" b with
  | none =>
      simp only [hl]
      exact ⟨[], (List.append_nil tr).symm⟩
  | some ds =>
      simp only [hl]
      cases hca : env.check_auth [[LoginType.PASSWORD]] b env.client_ip with
      | challenge r => simp only [hca]; exact ⟨_, rfl⟩
      | satisfied creds =>
          simp only [hca]
          cases hu : env.get_user_by_req false with
          | error e =>
              simp only [hu]
              exact ⟨[Call.check_auth [[LoginType.PASSWORD]] b env.client_ip,
                      Call.get_user_by_req false], by simp⟩
          | ok requester =>
              simp only [hu]
              cases hdel : env.delete_devices requester.user_id ds with
              | error e =>
                  simp only [hdel]
                  exact ⟨[Call.check_auth [[LoginType.PASSWORD]] b env.client_ip,
                          Call.get_user_by_req false,
                          Call.delete_devices requester.user_id ds], by simp⟩
              | ok u =>
                  simp only [hdel]
                  exact ⟨[Call.check_auth [[LoginType.PASSWORD]] b env.client_ip,
                          Call.get_user_by_req false,
                          Call.delete_devices requester.user_id ds], by simp⟩

/-- The single-delete continuation only appends to the calls already made. -/
theorem on_DELETE_after_parse_trace_extends (env : Env)
    (requester : Requester) (device_id : String) (b : JsonObject)
    (tr : List Call) :
    ∃ rest,
      (DeviceRestServlet.on_DELETE_after_parse env requester device_id b tr).2 =
        tr ++ rest := by
  unfold DeviceRestServlet.on_DELETE_after_parse
  cases hca : env.check_auth [[LoginType.PASSWORD]] b env.client_ip with
  | challenge r => simp only [hca]; exact ⟨_, rfl⟩
  | satisfied creds =>
      simp only [hca]
      by_cases hne : (List.lookup LoginType.PASSWORD creds).getD "" = requester.user_id
      · simp only [hne, ne_eq, not_true_eq_false, if_false, ite_not]
        cases hdel : env.delete_device requester.user_id device_id with
        | error e =>
            simp only [hdel]
            exact ⟨[Call.check_auth [[LoginType.PASSWORD]] b env.client_ip,
                    Call.delete_device requester.user_id device_id], by simp⟩
        | ok u =>
            simp only [hdel]
            exact ⟨[Call.check_auth [[LoginType.PASSWORD]] b env.client_ip,
                    Call.delete_device requester.user_id device_id], by simp⟩
      · simp only [ne_eq, hne, not_false_eq_true, if_true]
        exact ⟨_, rfl⟩

/-- Any Gate call recorded by the bulk-delete continuation beyond the calls
already made carries the single password flow, the normalized body and the
client IP. -/
theorem on_POST_after_parse_check_mem (env : Env) (b : JsonObject)
    (tr : List Call) (f : List (List String)) (bo : JsonObject) (ip : String)
    (h : Call.check_auth f bo ip ∈
      (DeleteDevicesRestServlet.on_POST_after_parse env b tr).2) :
    Call.check_auth f bo ip ∈ tr ∨
      (f = [[LoginType.PASSWORD]] ∧ bo = b ∧ ip = env.client_ip) := by
  unfold DeleteDevicesRestServlet.on_POST_after_parse at h
  cases hl : List.lookup "devices" b with
  | none =>
      simp only [hl] at h
      exact .inl h
  | some ds =>
      simp only [hl] at h
      cases hca : env.check_auth [[LoginType.PASSWORD]] b env.client_ip with
      | challenge r =>
          simp only [hca, List.append_assoc, List.mem_append, List.mem_cons,
            List.not_mem_nil, or_false, Call.check_auth.injEq] at h
          exact h
      | satisfied creds =>
          simp only [hca] at h
          cases hu : env.get_user_by_req false with
          | error e =>
              simp only [hu, List.append_assoc, List.mem_append, List.mem_cons,
                List.not_mem_nil, or_false, Call.check_auth.injEq,
                reduceCtorEq] at h
              exact h
          | ok requester =>
              simp only [hu] at h
              cases hdel : env.delete_devices requester.user_id ds with
              | error e =>
                  simp only [hdel, List.append_assoc, List.mem_append,
                    List.mem_cons, List.not_mem_nil, or_false,
                    Call.check_auth.injEq, reduceCtorEq] at h
                  exact h
              | ok u =>
                  simp only [hdel, List.append_assoc, List.mem_append,
                    List.mem_cons, List.not_mem_nil, or_false,
                    Call.check_auth.injEq, reduceCtorEq] at h
                  exact h

/-- Any Gate call recorded by the single-delete continuation beyond the
calls already made carries the single password flow, the normalized body
and the client IP. -/
theorem on_DELETE_after_parse_check_mem (env : Env) (requester : Requester)
    (device_id : String) (b : JsonObject)
    (tr : List Call) (f : List (List String)) (bo : JsonObject) (ip : String)
    (h : Call.check_auth f bo ip ∈
      (DeviceRestServlet.on_DELETE_after_parse env requester device_id b tr).2) :
    Call.check_auth f bo ip ∈ tr ∨
      (f = [[LoginType.PASSWORD]] ∧ bo = b ∧ ip = env.client_ip) := by
  unfold DeviceRestServlet.on_DELETE_after_parse at h
  cases hca : env.check_auth [[LoginType.PASSWORD]] b env.client_ip with
  | challenge r =>
      simp only [hca, List.append_assoc, List.mem_append, List.mem_cons,
        List.not_mem_nil, or_false, Call.check_auth.injEq] at h
      exact h
  | satisfied creds =>
      simp only [hca] at h
      by_cases hne : (List.lookup LoginType.PASSWORD creds).getD "" =
          requester.user_id
      · simp only [hne, ne_eq, not_true_eq_false, if_false, ite_not] at h
        cases hdel : env.delete_device requester.user_id device_id with
        | error e =>
            simp only [hdel, List.append_assoc, List.mem_append, List.mem_cons,
              List.not_mem_nil, or_false, Call.check_auth.injEq,
              reduceCtorEq] at h
            exact h
        | ok u =>
            simp only [hdel, List.append_assoc, List.mem_append, List.mem_cons,
              List.not_mem_nil, or_false, Call.check_auth.injEq,
              reduceCtorEq] at h
            exact h
      · simp only [ne_eq, hne, not_false_eq_true, if_true, List.append_assoc,
          List.mem_append, List.mem_cons, List.not_mem_nil, or_false,
          Call.check_auth.injEq] at h
        exact h

/-- If the bulk-delete continuation (entered with only the parse call
recorded) ever resolves the requester, the resolution disallows guests and
happens only after the parse and after the Gate call, as the first three
recorded calls show. -/
theorem on_POST_after_parse_getuser (env : Env) (b : JsonObject) (ag : Bool)
    (h : Call.get_user_by_req ag ∈
      (DeleteDevicesRestServlet.on_POST_after_parse env b
        [.parse_json_object_from_request]).2) :
    ag = false ∧
      (DeleteDevicesRestServlet.on_POST_after_parse env b
        [.parse_json_object_from_request]).2.take 3 =
        [.parse_json_object_from_request,
         .check_auth [[LoginType.PASSWORD]] b env.client_ip,
         .get_user_by_req false] := by
  unfold DeleteDevicesRestServlet.on_POST_after_parse at h ⊢
  cases hl : List.lookup "devices" b with
  | none =>
      simp only [hl, List.mem_singleton, reduceCtorEq] at h
  | some ds =>
      simp only [hl] at h ⊢
      cases hca : env.check_auth [[LoginType.PASSWORD]] b env.client_ip with
      | challenge r =>
          simp only [hca, List.cons_append, List.nil_append, List.mem_cons,
            List.not_mem_nil, or_false, reduceCtorEq] at h
      | satisfied creds =>
          simp only [hca] at h ⊢
          cases hu : env.get_user_by_req false with
          | error e =>
              simp only [hu, List.cons_append, List.nil_append, List.mem_cons,
                List.not_mem_nil, or_false, false_or, reduceCtorEq,
                Call.get_user_by_req.injEq] at h
              subst h
              simp [hu]
          | ok requester =>
              simp only [hu] at h ⊢
              cases hdel : env.delete_devices requester.user_id ds with
              | error e =>
                  simp only [hdel, List.append_assoc, List.mem_append,
                    List.mem_cons, List.not_mem_nil, or_false, false_or,
                    reduceCtorEq, Call.get_user_by_req.injEq] at h
                  subst h
                  simp [hdel]
              | ok u =>
                  simp only [hdel, List.append_assoc, List.mem_append,
                    List.mem_cons, List.not_mem_nil, or_false, false_or,
                    reduceCtorEq, Call.get_user_by_req.injEq] at h
                  subst h
                  simp [hdel]

/-- The first collaborator call of the bulk-delete handler is always the
body parse. -/
theorem on_POST_head (env : Env) :
    (DeleteDevicesRestServlet.on_POST env).2.head? =
      some .parse_json_object_from_request := by
  unfold DeleteDevicesRestServlet.on_POST
  cases hp : env.parse_json_object_from_request with
  | ok body =>
      simp only [hp]
      obtain ⟨rest, hr⟩ := on_POST_after_parse_trace_extends env body
        [.parse_json_object_from_request]
      rw [hr]
      rfl
  | error e =>
      by_cases hc : e.errcode = Codes.NOT_JSON
      · simp only [hp, hc, if_pos]
        obtain ⟨rest, hr⟩ := on_POST_after_parse_trace_extends env []
          [.parse_json_object_from_request]
        rw [hr]
        rfl
      · simp only [hp, hc, if_neg, ite_false]
        rfl

/-- Claim C1: on a single-delete request where the Gate is satisfied but
the identity proved by the password stage differs from the account
identifier resolved from the access token of the request itself, the
handler fails with a 403 Forbidden identity-mismatch error and never calls
the delete operation of the device handler. -/
theorem claim_C1 (env : Env) (device_id : String) (requester : Requester)
    (b : JsonObject) (creds : List (String × String)) (uid : String)
    (hu : env.get_user_by_req false = .ok requester)
    (hb : normalized_body env = some b)
    (hca : env.check_auth [[LoginType.PASSWORD]] b env.client_ip =
      .satisfied creds)
    (hid : List.lookup LoginType.PASSWORD creds = some uid)
    (hne : uid ≠ requester.user_id) :
    DeviceRestServlet.on_DELETE env device_id =
      (.raised ⟨403, "Invalid auth", Codes.FORBIDDEN⟩,
       [.get_user_by_req false, .parse_json_object_from_request,
        .check_auth [[LoginType.PASSWORD]] b env.client_ip]) ∧
    ∀ u d, Call.delete_device u d ∉
      (DeviceRestServlet.on_DELETE env device_id).2 := by
  have hrun := on_DELETE_mismatch_run env requester device_id b creds uid
    hu hb hca hid hne
  refine ⟨hrun, ?_⟩
  intro u d
  rw [hrun]
  simp

/-- Claim C2: on any bulk-delete or single-delete request on which the
Gate returns a challenge, the handler returns 401 with the challenge
result unmodified and performs no deletion call on the device handler. -/
theorem claim_C2 (env : Env) (device_id : String) (b : JsonObject) (r : Json)
    (hb : normalized_body env = some b)
    (hca : env.check_auth [[LoginType.PASSWORD]] b env.client_ip =
      .challenge r) :
    (∀ ds, List.lookup "devices" b = some ds →
      DeleteDevicesRestServlet.on_POST env =
        (.response 401 r,
         [.parse_json_object_from_request,
          .check_auth [[LoginType.PASSWORD]] b env.client_ip]) ∧
      ∀ u dj, Call.delete_devices u dj ∉
        (DeleteDevicesRestServlet.on_POST env).2) ∧
    (∀ requester, env.get_user_by_req false = .ok requester →
      DeviceRestServlet.on_DELETE env device_id =
        (.response 401 r,
         [.get_user_by_req false, .parse_json_object_from_request,
          .check_auth [[LoginType.PASSWORD]] b env.client_ip]) ∧
      ∀ u d, Call.delete_device u d ∉
        (DeviceRestServlet.on_DELETE env device_id).2) := by
  constructor
  · intro ds hd
    have hrun := on_POST_challenge_run env b ds r hb hd hca
    refine ⟨hrun, ?_⟩
    intro u dj
    rw [hrun]
    simp
  · intro requester hu
    have hrun := on_DELETE_challenge_run env requester device_id b r hu hb hca
    refine ⟨hrun, ?_⟩
    intro u d
    rw [hrun]
    simp

/-- Claim C3: a bulk-delete request whose normalized body has no devices
key, including a body substituted with the empty object on the legacy
path, fails with a 400 MissingParam error before the Gate is invoked and
before any requester resolution. -/
theorem claim_C3 (env : Env) (b : JsonObject)
    (hb : normalized_body env = some b)
    (hd : List.lookup "devices" b = none) :
    DeleteDevicesRestServlet.on_POST env =
      (.raised ⟨400, "No devices supplied", Codes.MISSING_PARAM⟩,
       [.parse_json_object_from_request]) ∧
    (∀ f bo ip, Call.check_auth f bo ip ∉
      (DeleteDevicesRestServlet.on_POST env).2) ∧
    (∀ ag, Call.get_user_by_req ag ∉
      (DeleteDevicesRestServlet.on_POST env).2) := by
  have hrun := on_POST_missing_devices_run env b hb hd
  refine ⟨hrun, ?_, ?_⟩
  · intro f bo ip
    rw [hrun]
    simp
  · intro ag
    rw [hrun]
    simp

/-- Claim C4: on both delete paths a body-parse failure is substituted
with the empty object exactly when its errcode is NOT_JSON; a parse
failure with any other errcode is re-raised to the caller. -/
theorem claim_C4 (env : Env) (device_id : String) (e : SynapseError)
    (hp : env.parse_json_object_from_request = .error e) :
    (e.errcode = Codes.NOT_JSON →
      DeleteDevicesRestServlet.on_POST env =
        DeleteDevicesRestServlet.on_POST
          { env with parse_json_object_from_request := .ok [] } ∧
      DeviceRestServlet.on_DELETE env device_id =
        DeviceRestServlet.on_DELETE
          { env with parse_json_object_from_request := .ok [] } device_id) ∧
    (e.errcode ≠ Codes.NOT_JSON →
      DeleteDevicesRestServlet.on_POST env =
        (.raised e, [.parse_json_object_from_request]) ∧
      ∀ requester, env.get_user_by_req false = .ok requester →
        DeviceRestServlet.on_DELETE env device_id =
          (.raised e,
           [.get_user_by_req false, .parse_json_object_from_request])) := by
  constructor
  · intro hc
    constructor
    · unfold DeleteDevicesRestServlet.on_POST
      simp only [hp, hc, if_pos]
      rfl
    · unfold DeviceRestServlet.on_DELETE
      cases hu : env.get_user_by_req false with
      | error e2 =>
          simp only [hu]
      | ok requester =>
          simp only [hu, hp, hc, if_pos]
          rfl
  · intro hc
    constructor
    · unfold DeleteDevicesRestServlet.on_POST
      simp only [hp, hc, if_neg, ite_false]
    · intro requester hu
      unfold DeviceRestServlet.on_DELETE
      simp only [hu, hp, hc, if_neg, ite_false]

/-- Claim C5: on a bulk-delete request on which the Gate is satisfied, the
handler calls delete_devices with the account resolved from the access
token and the devices value of the body, returns 200 with an empty object,
and performs no identity-binding comparison: the same run results for any
credentials the Gate may report. -/
theorem claim_C5 (env : Env) (b : JsonObject) (ds : Json)
    (creds : List (String × String)) (requester : Requester)
    (hb : normalized_body env = some b)
    (hd : List.lookup "devices" b = some ds)
    (hca : env.check_auth [[LoginType.PASSWORD]] b env.client_ip =
      .satisfied creds)
    (hu : env.get_user_by_req false = .ok requester)
    (hdel : env.delete_devices requester.user_id ds = .ok ()) :
    DeleteDevicesRestServlet.on_POST env =
      (.response 200 (Json.obj []),
       [.parse_json_object_from_request,
        .check_auth [[LoginType.PASSWORD]] b env.client_ip,
        .get_user_by_req false,
        .delete_devices requester.user_id ds]) ∧
    ∀ creds2,
      DeleteDevicesRestServlet.on_POST
        { env with check_auth := fun _ _ _ => .satisfied creds2 } =
        (.response 200 (Json.obj []),
         [.parse_json_object_from_request,
          .check_auth [[LoginType.PASSWORD]] b env.client_ip,
          .get_user_by_req false,
          .delete_devices requester.user_id ds]) := by
  refine ⟨on_POST_success_run env b ds creds requester hb hd hca hu hdel, ?_⟩
  intro creds2
  exact on_POST_success_run
    { env with check_auth := fun _ _ _ => .satisfied creds2 }
    b ds creds2 requester hb hd rfl hu hdel

/-- Claim C6: every Gate invocation made by the bulk-delete or the
single-delete handler carries exactly one required flow of exactly the
base password stage, the normalized request body as the submitted proof,
and the client IP of the request. -/
theorem claim_C6 (env : Env) (device_id : String)
    (f : List (List String)) (bo : JsonObject) (ip : String)
    (h : Call.check_auth f bo ip ∈ (DeleteDevicesRestServlet.on_POST env).2 ∨
         Call.check_auth f bo ip ∈
           (DeviceRestServlet.on_DELETE env device_id).2) :
    f = [[LoginType.PASSWORD]] ∧ normalized_body env = some bo ∧
      ip = env.client_ip := by
  rcases h with h | h
  · unfold DeleteDevicesRestServlet.on_POST at h
    cases hp : env.parse_json_object_from_request with
    | ok body =>
        simp only [hp] at h
        rcases on_POST_after_parse_check_mem env body _ f bo ip h with
          h | ⟨hf, hbo, hip⟩
        · simp at h
        · refine ⟨hf, ?_, hip⟩
          rw [hbo]
          simp [normalized_body, hp]
    | error e =>
        by_cases hc : e.errcode = Codes.NOT_JSON
        · simp only [hp, hc, if_pos] at h
          rcases on_POST_after_parse_check_mem env [] _ f bo ip h with
            h | ⟨hf, hbo, hip⟩
          · simp at h
          · refine ⟨hf, ?_, hip⟩
            rw [hbo]
            simp [normalized_body, hp, hc]
        · simp only [hp, hc, if_neg, ite_false] at h
          simp at h
  · unfold DeviceRestServlet.on_DELETE at h
    cases hu : env.get_user_by_req false with
    | error e =>
        simp only [hu] at h
        simp at h
    | ok requester =>
        simp only [hu] at h
        cases hp : env.parse_json_object_from_request with
        | ok body =>
            simp only [hp] at h
            rcases on_DELETE_after_parse_check_mem env requester device_id
              body _ f bo ip h with h | ⟨hf, hbo, hip⟩
            · simp at h
            · refine ⟨hf, ?_, hip⟩
              rw [hbo]
              simp [normalized_body, hp]
        | error e =>
            by_cases hc : e.errcode = Codes.NOT_JSON
            · simp only [hp, hc, if_pos] at h
              rcases on_DELETE_after_parse_check_mem env requester device_id
                [] _ f bo ip h with h | ⟨hf, hbo, hip⟩
              · simp at h
              · refine ⟨hf, ?_, hip⟩
                rw [hbo]
                simp [normalized_body, hp, hc]
            · simp only [hp, hc, if_neg, ite_false] at h
              simp at h

/-- Claim C7: the read-path operations list, get and update never invoke
the Gate; each resolves the requester from the access token first, with
guests allowed, and calls the device handler directly once resolution
succeeds. -/
theorem claim_C7 (env : Env) (device_id : String) :
    (∀ f bo ip, Call.check_auth f bo ip ∉ (DevicesRestServlet.on_GET env).2) ∧
    (∀ f bo ip, Call.check_auth f bo ip ∉
      (DeviceRestServlet.on_GET env device_id).2) ∧
    (∀ f bo ip, Call.check_auth f bo ip ∉
      (DeviceRestServlet.on_PUT env device_id).2) ∧
    (DevicesRestServlet.on_GET env).2.head? =
      some (.get_user_by_req true) ∧
    (DeviceRestServlet.on_GET env device_id).2.head? =
      some (.get_user_by_req true) ∧
    (DeviceRestServlet.on_PUT env device_id).2.head? =
      some (.get_user_by_req true) ∧
    (∀ requester, env.get_user_by_req true = .ok requester →
      Call.get_devices_by_user requester.user_id ∈
        (DevicesRestServlet.on_GET env).2 ∧
      Call.get_device requester.user_id device_id ∈
        (DeviceRestServlet.on_GET env device_id).2 ∧
      ∀ body, env.parse_json_object_from_request = .ok body →
        Call.update_device requester.user_id device_id body ∈
          (DeviceRestServlet.on_PUT env device_id).2) := by
  refine ⟨?_, ?_, ?_, ?_, ?_, ?_, ?_⟩
  · intro f bo ip
    unfold DevicesRestServlet.on_GET
    cases hu : env.get_user_by_req true with
    | error e => simp [hu]
    | ok requester =>
        cases hls : env.get_devices_by_user requester.user_id with
        | error e => simp [hu, hls]
        | ok devices => simp [hu, hls]
  · intro f bo ip
    unfold DeviceRestServlet.on_GET
    cases hu : env.get_user_by_req true with
    | error e => simp [hu]
    | ok requester =>
        cases hg : env.get_device requester.user_id device_id with
        | error e => simp [hu, hg]
        | ok device => simp [hu, hg]
  · intro f bo ip
    unfold DeviceRestServlet.on_PUT
    cases hu : env.get_user_by_req true with
    | error e => simp [hu]
    | ok requester =>
        cases hp : env.parse_json_object_from_request with
        | error e => simp [hu, hp]
        | ok body =>
            cases hup : env.update_device requester.user_id device_id body with
            | error e => simp [hu, hp, hup]
            | ok u => simp [hu, hp, hup]
  · unfold DevicesRestServlet.on_GET
    cases hu : env.get_user_by_req true with
    | error e => simp [hu]
    | ok requester =>
        cases hls : env.get_devices_by_user requester.user_id with
        | error e => simp [hu, hls]
        | ok devices => simp [hu, hls]
  · unfold DeviceRestServlet.on_GET
    cases hu : env.get_user_by_req true with
    | error e => simp [hu]
    | ok requester =>
        cases hg : env.get_device requester.user_id device_id with
        | error e => simp [hu, hg]
        | ok device => simp [hu, hg]
  · unfold DeviceRestServlet.on_PUT
    cases hu : env.get_user_by_req true with
    | error e => simp [hu]
    | ok requester =>
        cases hp : env.parse_json_object_from_request with
        | error e => simp [hu, hp]
        | ok body =>
            cases hup : env.update_device requester.user_id device_id body with
            | error e => simp [hu, hp, hup]
            | ok u => simp [hu, hp, hup]
  · intro requester hu
    refine ⟨?_, ?_, ?_⟩
    · unfold DevicesRestServlet.on_GET
      cases hls : env.get_devices_by_user requester.user_id with
      | error e => simp [hu, hls]
      | ok devices => simp [hu, hls]
    · unfold DeviceRestServlet.on_GET
      cases hg : env.get_device requester.user_id device_id with
      | error e => simp [hu, hg]
      | ok device => simp [hu, hg]
    · intro body hp
      unfold DeviceRestServlet.on_PUT
      cases hup : env.update_device requester.user_id device_id body with
      | error e => simp [hu, hp, hup]
      | ok u => simp [hu, hp, hup]

/-- Claim C8: on success the list operation returns 200 with the device
sequence wrapped as an object under the devices key, and successful bulk
delete, single delete and update each return 200 with an empty object
body. -/
theorem claim_C8 (env : Env) (device_id : String) :
    (∀ requester devices, env.get_user_by_req true = .ok requester →
      env.get_devices_by_user requester.user_id = .ok devices →
      (DevicesRestServlet.on_GET env).1 =
        .response 200 (Json.obj [("devices", devices)])) ∧
    (∀ b ds creds requester, normalized_body env = some b →
      List.lookup "devices" b = some ds →
      env.check_auth [[LoginType.PASSWORD]] b env.client_ip =
        .satisfied creds →
      env.get_user_by_req false = .ok requester →
      env.delete_devices requester.user_id ds = .ok () →
      (DeleteDevicesRestServlet.on_POST env).1 =
        .response 200 (Json.obj [])) ∧
    (∀ requester b creds, env.get_user_by_req false = .ok requester →
      normalized_body env = some b →
      env.check_auth [[LoginType.PASSWORD]] b env.client_ip =
        .satisfied creds →
      List.lookup LoginType.PASSWORD creds = some requester.user_id →
      env.delete_device requester.user_id device_id = .ok () →
      (DeviceRestServlet.on_DELETE env device_id).1 =
        .response 200 (Json.obj [])) ∧
    (∀ requester body, env.get_user_by_req true = .ok requester →
      env.parse_json_object_from_request = .ok body →
      env.update_device requester.user_id device_id body = .ok () →
      (DeviceRestServlet.on_PUT env device_id).1 =
        .response 200 (Json.obj [])) := by
  refine ⟨?_, ?_, ?_, ?_⟩
  · intro requester devices hu hls
    rw [on_GET_list_success_run env requester devices hu hls]
  · intro b ds creds requester hb hd hca hu hdel
    rw [on_POST_success_run env b ds creds requester hb hd hca hu hdel]
  · intro requester b creds hu hb hca hid hdel
    rw [on_DELETE_success_run env requester device_id b creds hu hb hca
      hid hdel]
  · intro requester body hu hp hup
    rw [on_PUT_success_run env requester device_id body hu hp hup]

/-- Claim C9: the update handler resolves the requester with guests
allowed, and a resolved guest requester has its update forwarded to the
device handler; on update success the response is 200 with an empty
object. -/
theorem claim_C9 (env : Env) (device_id : String) (requester : Requester)
    (body : JsonObject)
    (hu : env.get_user_by_req true = .ok requester)
    (hg : requester.is_guest = true)
    (hp : env.parse_json_object_from_request = .ok body) :
    (DeviceRestServlet.on_PUT env device_id).2 =
      [.get_user_by_req true, .parse_json_object_from_request,
       .update_device requester.user_id device_id body] ∧
    (env.update_device requester.user_id device_id body = .ok () →
      DeviceRestServlet.on_PUT env device_id =
        (.response 200 (Json.obj []),
         [.get_user_by_req true, .parse_json_object_from_request,
          .update_device requester.user_id device_id body])) := by
  refine ⟨on_PUT_trace_run env requester device_id body hu hp, ?_⟩
  intro hup
  exact on_PUT_success_run env requester device_id body hu hp hup

/-- Claim C10: on the single-delete path the requester is resolved with
guests disallowed before the body is parsed, so a failing resolution
raises its error with no parse and no Gate call; on the bulk-delete path
the parse comes first and any requester resolution happens with guests
disallowed only after the Gate call, as the first three recorded calls
show. -/
theorem claim_C10 (env : Env) (device_id : String) :
    (∀ e, env.get_user_by_req false = .error e →
      DeviceRestServlet.on_DELETE env device_id =
        (.raised e, [.get_user_by_req false]) ∧
      Call.parse_json_object_from_request ∉
        (DeviceRestServlet.on_DELETE env device_id).2 ∧
      ∀ f bo ip, Call.check_auth f bo ip ∉
        (DeviceRestServlet.on_DELETE env device_id).2) ∧
    (DeleteDevicesRestServlet.on_POST env).2.head? =
      some .parse_json_object_from_request ∧
    (∀ ag, Call.get_user_by_req ag ∈ (DeleteDevicesRestServlet.on_POST env).2 →
      ag = false ∧ ∃ b, normalized_body env = some b ∧
        (DeleteDevicesRestServlet.on_POST env).2.take 3 =
          [.parse_json_object_from_request,
           .check_auth [[LoginType.PASSWORD]] b env.client_ip,
           .get_user_by_req false]) := by
  refine ⟨?_, on_POST_head env, ?_⟩
  · intro e he
    have hrun : DeviceRestServlet.on_DELETE env device_id =
        (.raised e, [.get_user_by_req false]) := by
      unfold DeviceRestServlet.on_DELETE
      simp only [he]
    refine ⟨hrun, ?_, ?_⟩
    · rw [hrun]
      simp
    · intro f bo ip
      rw [hrun]
      simp
  · intro ag h
    unfold DeleteDevicesRestServlet.on_POST at h ⊢
    cases hp : env.parse_json_object_from_request with
    | ok body =>
        simp only [hp] at h ⊢
        obtain ⟨hag, htake⟩ := on_POST_after_parse_getuser env body ag h
        exact ⟨hag, body, by simp [normalized_body, hp], htake⟩
    | error e =>
        by_cases hc : e.errcode = Codes.NOT_JSON
        · simp only [hp, hc, if_pos] at h ⊢
          obtain ⟨hag, htake⟩ := on_POST_after_parse_getuser env [] ag h
          exact ⟨hag, [], by simp [normalized_body, hp, hc], htake⟩
        · simp only [hp, hc, if_neg, ite_false] at h
          simp at h

/-- Witness for claim C1: a concrete mismatching run raises 403 and never
deletes. -/
theorem claim_C1_witness :
    DeviceRestServlet.on_DELETE envMismatch "dev1" =
      (.raised ⟨403, "Invalid auth", Codes.FORBIDDEN⟩,
       [.get_user_by_req false, .parse_json_object_from_request,
        .check_auth [[LoginType.PASSWORD]] sampleBody envMismatch.client_ip]) ∧
    Call.delete_device "@alice:example.com" "dev1" ∉
      (DeviceRestServlet.on_DELETE envMismatch "dev1").2 := by
  have h := claim_C1 envMismatch "dev1" alice sampleBody
    [(LoginType.PASSWORD, "@mallory:example.com")] "@mallory:example.com"
    rfl rfl rfl rfl (by decide)
  exact ⟨h.1, h.2 "@alice:example.com" "dev1"⟩

/-- Witness for claim C2: a concrete challenged run returns 401 verbatim on
both delete paths and no deletion call is made. -/
theorem claim_C2_witness :
    (DeleteDevicesRestServlet.on_POST envChallenge =
      (.response 401 challengeBody,
       [.parse_json_object_from_request,
        .check_auth [[LoginType.PASSWORD]] sampleBody envChallenge.client_ip]) ∧
     Call.delete_devices "@alice:example.com" (Json.arr []) ∉
       (DeleteDevicesRestServlet.on_POST envChallenge).2) ∧
    (DeviceRestServlet.on_DELETE envChallenge "dev1" =
      (.response 401 challengeBody,
       [.get_user_by_req false, .parse_json_object_from_request,
        .check_auth [[LoginType.PASSWORD]] sampleBody envChallenge.client_ip]) ∧
     Call.delete_device "@alice:example.com" "dev1" ∉
       (DeviceRestServlet.on_DELETE envChallenge "dev1").2) := by
  have h := claim_C2 envChallenge "dev1" sampleBody challengeBody rfl rfl
  have h1 := h.1 (Json.arr [Json.str "dev1"]) rfl
  have h2 := h.2 alice rfl
  exact ⟨⟨h1.1, h1.2 "@alice:example.com" (Json.arr [])⟩,
    ⟨h2.1, h2.2 "@alice:example.com" "dev1"⟩⟩

/-- Witness for claim C3: a legacy empty body lacking the devices key is
rejected with MissingParam before any Gate call or resolution. -/
theorem claim_C3_witness :
    DeleteDevicesRestServlet.on_POST envNotJson =
      (.raised ⟨400, "No devices supplied", Codes.MISSING_PARAM⟩,
       [.parse_json_object_from_request]) ∧
    Call.check_auth [[LoginType.PASSWORD]] [] envNotJson.client_ip ∉
      (DeleteDevicesRestServlet.on_POST envNotJson).2 ∧
    Call.get_user_by_req false ∉
      (DeleteDevicesRestServlet.on_POST envNotJson).2 := by
  have h := claim_C3 envNotJson [] rfl rfl
  exact ⟨h.1, h.2.1 [[LoginType.PASSWORD]] [] envNotJson.client_ip,
    h.2.2 false⟩

/-- Witness for claim C4: a NOT_JSON parse failure behaves as an empty
body on both delete paths, and a differently coded parse failure is
re-raised on both. -/
theorem claim_C4_witness :
    (DeleteDevicesRestServlet.on_POST envNotJson =
      DeleteDevicesRestServlet.on_POST
        { envNotJson with parse_json_object_from_request := .ok [] } ∧
     DeviceRestServlet.on_DELETE envNotJson "dev1" =
      DeviceRestServlet.on_DELETE
        { envNotJson with parse_json_object_from_request := .ok [] } "dev1") ∧
    (DeleteDevicesRestServlet.on_POST envBadJson =
      (.raised badJsonError, [.parse_json_object_from_request]) ∧
     DeviceRestServlet.on_DELETE envBadJson "dev1" =
      (.raised badJsonError,
       [.get_user_by_req false, .parse_json_object_from_request])) := by
  have h1 := (claim_C4 envNotJson "dev1" notJsonError rfl).1 rfl
  have h2 := (claim_C4 envBadJson "dev1" badJsonError rfl).2 (by decide)
  exact ⟨h1, h2.1, h2.2 alice rfl⟩

/-- Witness for claim C5: a concrete satisfied bulk delete calls
delete_devices with the token-bound account and returns 200 with an empty
object, independently of the credentials the Gate reports. -/
theorem claim_C5_witness :
    DeleteDevicesRestServlet.on_POST envOk =
      (.response 200 (Json.obj []),
       [.parse_json_object_from_request,
        .check_auth [[LoginType.PASSWORD]] sampleBody envOk.client_ip,
        .get_user_by_req false,
        .delete_devices "@alice:example.com" (Json.arr [Json.str "dev1"])]) ∧
    DeleteDevicesRestServlet.on_POST
        { envOk with check_auth := fun _ _ _ => .satisfied [] } =
      (.response 200 (Json.obj []),
       [.parse_json_object_from_request,
        .check_auth [[LoginType.PASSWORD]] sampleBody envOk.client_ip,
        .get_user_by_req false,
        .delete_devices "@alice:example.com" (Json.arr [Json.str "dev1"])]) := by
  have h := claim_C5 envOk sampleBody (Json.arr [Json.str "dev1"])
    [(LoginType.PASSWORD, "@alice:example.com")] alice rfl rfl rfl rfl rfl
  exact ⟨h.1, h.2 []⟩

/-- Witness for claim C6: the Gate call recorded in a concrete bulk run
carries the password flow, the normalized body and the client IP. -/
theorem claim_C6_witness :
    [[LoginType.PASSWORD]] = [[LoginType.PASSWORD]] ∧
    normalized_body envOk = some sampleBody ∧
    envOk.client_ip = envOk.client_ip :=
  claim_C6 envOk "dev1" [[LoginType.PASSWORD]] sampleBody envOk.client_ip
    (.inl (List.Mem.tail _ (List.Mem.head _)))

/-- Witness for claim C7: in a concrete run the read paths record no Gate
call, start with a guest-allowing resolution, and reach the device
handler. -/
theorem claim_C7_witness :
    Call.check_auth [[LoginType.PASSWORD]] [] "10.0.0.1" ∉
      (DevicesRestServlet.on_GET envOk).2 ∧
    Call.check_auth [[LoginType.PASSWORD]] [] "10.0.0.1" ∉
      (DeviceRestServlet.on_GET envOk "dev1").2 ∧
    Call.check_auth [[LoginType.PASSWORD]] [] "10.0.0.1" ∉
      (DeviceRestServlet.on_PUT envOk "dev1").2 ∧
    (DevicesRestServlet.on_GET envOk).2.head? =
      some (.get_user_by_req true) ∧
    (DeviceRestServlet.on_GET envOk "dev1").2.head? =
      some (.get_user_by_req true) ∧
    (DeviceRestServlet.on_PUT envOk "dev1").2.head? =
      some (.get_user_by_req true) ∧
    Call.get_devices_by_user "@alice:example.com" ∈
      (DevicesRestServlet.on_GET envOk).2 ∧
    Call.get_device "@alice:example.com" "dev1" ∈
      (DeviceRestServlet.on_GET envOk "dev1").2 ∧
    Call.update_device "@alice:example.com" "dev1" sampleBody ∈
      (DeviceRestServlet.on_PUT envOk "dev1").2 := by
  have h := claim_C7 envOk "dev1"
  have hd := h.2.2.2.2.2.2 alice rfl
  exact ⟨h.1 [[LoginType.PASSWORD]] [] "10.0.0.1",
    h.2.1 [[LoginType.PASSWORD]] [] "10.0.0.1",
    h.2.2.1 [[LoginType.PASSWORD]] [] "10.0.0.1",
    h.2.2.2.1, h.2.2.2.2.1, h.2.2.2.2.2.1,
    hd.1, hd.2.1, hd.2.2 sampleBody rfl⟩

/-- Witness for claim C8: concrete successful runs return the specified
200 responses on all four operations. -/
theorem claim_C8_witness :
    (DevicesRestServlet.on_GET envOk).1 =
      .response 200 (Json.obj
        [("devices", Json.arr [Json.obj [("device_id", Json.str "dev1")]])]) ∧
    (DeleteDevicesRestServlet.on_POST envOk).1 =
      .response 200 (Json.obj []) ∧
    (DeviceRestServlet.on_DELETE envOk "dev1").1 =
      .response 200 (Json.obj []) ∧
    (DeviceRestServlet.on_PUT envOk "dev1").1 =
      .response 200 (Json.obj []) := by
  have h := claim_C8 envOk "dev1"
  exact ⟨h.1 alice (Json.arr [Json.obj [("device_id", Json.str "dev1")]])
      rfl rfl,
    h.2.1 sampleBody (Json.arr [Json.str "dev1"])
      [(LoginType.PASSWORD, "@alice:example.com")] alice rfl rfl rfl rfl rfl,
    h.2.2.1 alice sampleBody [(LoginType.PASSWORD, "@alice:example.com")]
      rfl rfl rfl rfl rfl,
    h.2.2.2 alice sampleBody rfl rfl rfl⟩

/-- Witness for claim C9: a concrete guest requester has its update
forwarded and receives 200 with an empty object. -/
theorem claim_C9_witness :
    (DeviceRestServlet.on_PUT envGuest "dev1").2 =
      [.get_user_by_req true, .parse_json_object_from_request,
       .update_device "@guest:example.com" "dev1" sampleBody] ∧
    DeviceRestServlet.on_PUT envGuest "dev1" =
      (.response 200 (Json.obj []),
       [.get_user_by_req true, .parse_json_object_from_request,
        .update_device "@guest:example.com" "dev1" sampleBody]) := by
  have h := claim_C9 envGuest "dev1" guestUser sampleBody rfl rfl rfl
  exact ⟨h.1, h.2 rfl⟩

/-- Witness for claim C10: a concrete guest token fails single delete
before parse and Gate, and a concrete bulk run resolves the requester only
after the parse and the Gate call. -/
theorem claim_C10_witness :
    (DeviceRestServlet.on_DELETE envGuest "dev1" =
      (.raised authFailure, [.get_user_by_req false]) ∧
     Call.parse_json_object_from_request ∉
       (DeviceRestServlet.on_DELETE envGuest "dev1").2 ∧
     Call.check_auth [[LoginType.PASSWORD]] sampleBody envGuest.client_ip ∉
       (DeviceRestServlet.on_DELETE envGuest "dev1").2) ∧
    (DeleteDevicesRestServlet.on_POST envOk).2.head? =
      some .parse_json_object_from_request ∧
    (false = false ∧ ∃ b, normalized_body envOk = some b ∧
      (DeleteDevicesRestServlet.on_POST envOk).2.take 3 =
        [.parse_json_object_from_request,
         .check_auth [[LoginType.PASSWORD]] b envOk.client_ip,
         .get_user_by_req false]) := by
  have hgu := claim_C10 envGuest "dev1"
  have ho := claim_C10 envOk "dev1"
  have h1 := hgu.1 authFailure rfl
  exact ⟨⟨h1.1, h1.2.1,
      h1.2.2 [[LoginType.PASSWORD]] sampleBody envGuest.client_ip⟩,
    ho.2.1,
    ho.2.2 false (List.Mem.tail _ (List.Mem.tail _ (List.Mem.head _)))⟩
